import Mathlib

/-!
Verification of `SimulationSolarHeater.py` against its specification.

Numbers that the Python program holds as `int`/`float` are modelled as
rationals (`ℚ`): every arithmetic step of the program is one of
`+ - * /` on decimal literals, so the rational semantics is the ideal
(real-number) reading of the code.  A Python statement that can raise is
modelled in `Except PyError`: `x / y` raises `ZeroDivisionError` when
`y = 0`, an access to an attribute an object never defines raises
`AttributeError`, and a reference to an unbound name raises `NameError`.
-/

namespace SolarSim

/-- Exceptions the Python source can raise. -/
inductive PyError where
  | zeroDivision
  | valueError
  | attributeError
  | nameError
deriving DecidableEq, Repr

/-! ## class Fluid -/

/-- Fluid.SpecificHeatCapacity = 4.2 kJ per kg per degree. -/
def SpecificHeatCapacity : ℚ := 42 / 10

/-- Fluid.Density = 980 kg per cubic meter. -/
def Density : ℚ := 980

/-! ## class Panel -/

/-- A solar panel: height, width and conversion efficiency. -/
structure Panel where
  height : ℚ
  width : ℚ
  efficiency : ℚ
deriving DecidableEq, Repr

/-- Panel.heatEnergy: `(self / (mass * specificHeat)) + temprature`, where the
first parameter (called `self` in the source) is the absorbed energy Q.
Python raises ZeroDivisionError when the divisor `mass * specificHeat` is 0. -/
def heatEnergy (Q mass specificHeat temprature : ℚ) : Except PyError ℚ :=
  if mass * specificHeat = 0 then .error .zeroDivision
  else .ok (Q / (mass * specificHeat) + temprature)

/-- Panel.tempResult: absorbed energy `Q = solarEnergy * height * width *
efficiency`, then the outlet temperature via `Panel.heatEnergy`. -/
def Panel.tempResult (p : Panel) (solarEnergy mass temprature : ℚ) : Except PyError ℚ :=
  heatEnergy (solarEnergy * p.height * p.width * p.efficiency) mass SpecificHeatCapacity temprature

/-- Panel.setSpec: partial update, a `None` argument keeps the prior value. -/
def Panel.setSpec (p : Panel) (height width efficiency : Option ℚ) : Panel :=
  ⟨height.getD p.height, width.getD p.width, efficiency.getD p.efficiency⟩

/-! ## class SolarHeater

`__panels = []` is declared at class scope, so it is a single list shared by
every instance; `self.__panels.append(...)` in `buildSolarPanels` mutates that
shared class-level list.  The embedding therefore threads the class-level list
explicitly: a constructed instance carries only its `incidentEnergy` field, and
the panel sequence every instance reads is the class-level list. -/

/-- SolarHeater.MAX_HEAT. -/
def MAX_HEAT : ℚ := 95

/-- The per-instance state of a SolarHeater: only `incidentEnergy`
(set to `-1` by `__init__`); the panels live in the class-level list. -/
structure SolarHeaterInst where
  incidentEnergy : ℚ
deriving DecidableEq, Repr

/-- SolarHeater.buildSolarPanels: rejects a customSpec whose length is neither
0 nor 3, unpacks it (or the default `(1, 1, 0.18)`), and appends `number`
panels to the shared class-level list. -/
def buildSolarPanels (classPanels : List Panel) (number : Nat) (customSpec : List ℚ) :
    Except PyError (List Panel) :=
  if customSpec.length ≠ 0 ∧ customSpec.length ≠ 3 then .error .valueError
  else
    match customSpec with
    | [h, w, e] => .ok (classPanels ++ List.replicate number ⟨h, w, e⟩)
    | _ => .ok (classPanels ++ List.replicate number ⟨1, 1, 9 / 50⟩)

/-- SolarHeater.__init__: builds panels into the shared class-level list and
sets `incidentEnergy = -1`.  Returns the new class-level list together with
the fresh instance. -/
def SolarHeater.construct (classPanels : List Panel) (numberOfPanels : Nat)
    (customSpec : List ℚ) : Except PyError (List Panel × SolarHeaterInst) :=
  match buildSolarPanels classPanels numberOfPanels customSpec with
  | .error e => .error e
  | .ok ps => .ok (ps, ⟨-1⟩)

/-- SolarHeater.changePanelAt is declared without a `self` parameter (its first
positional parameter is `index`), so the body's first reference to the unbound
name `self` in `len(self.panels)` raises NameError on every invocation, before
the index guard can return or any panel is updated. -/
def changePanelAt (index : Nat) (height width efficiency : Option ℚ) :
    Except PyError (List Panel) :=
  .error .nameError

/-- SolarHeater.getIncidentEnergy: raises ValueError when the stored value
equals 0, and returns the stored value otherwise. -/
def getIncidentEnergy (h : SolarHeaterInst) : Except PyError ℚ :=
  if h.incidentEnergy = 0 then .error .valueError
  else .ok h.incidentEnergy

/-- SolarHeater.setIncidentEnergy. -/
def setIncidentEnergy (h : SolarHeaterInst) (energy : ℚ) : SolarHeaterInst :=
  ⟨energy⟩

/-- The for-loop of SolarHeater.heatWater building `tempObtainedFromPanels`:
for each panel, `panel.tempResult(incidentEnergy, massPerPanel, initialTemp)
* massPerPanel`, propagating the first raised exception. -/
def collectPanelTemps (solarEnergy massPerPanel initialTemp : ℚ) :
    List Panel → Except PyError (List ℚ)
  | [] => .ok []
  | p :: ps =>
    match p.tempResult solarEnergy massPerPanel initialTemp with
    | .error e => .error e
    | .ok r =>
      match collectPanelTemps solarEnergy massPerPanel initialTemp ps with
      | .error e => .error e
      | .ok rest => .ok (r * massPerPanel :: rest)

/-- SolarHeater.heatWater.  `volume / numberOfPanels` raises ZeroDivisionError
when the shared panel list is empty; `volumePerPanel * Density` is the
per-panel mass (inlined below); the final result is
`sum(tempObtainedFromPanels) / (volume * Density)`. -/
def SolarHeater.heatWater (panels : List Panel) (incidentEnergy volume initialTemp : ℚ) :
    Except PyError ℚ :=
  if MAX_HEAT ≤ initialTemp then .ok MAX_HEAT
  else if (panels.length : ℚ) = 0 then .error .zeroDivision
  else
    match collectPanelTemps incidentEnergy (volume / (panels.length : ℚ) * Density)
        initialTemp panels with
    | .error e => .error e
    | .ok tempObtainedFromPanels =>
      if volume * Density = 0 then .error .zeroDivision
      else .ok (tempObtainedFromPanels.sum / (volume * Density))

/-! ## class Tank -/

/-- Tank: capacity, stored water volume, uniform water temperature. -/
structure Tank where
  capacity : ℚ
  waterVol : ℚ
  waterTemp : ℚ
deriving DecidableEq, Repr

/-- Tank.__mixWater: `waterTemp = (volume*temprature + waterTemp*waterVol) /
(volume + waterVol)` (ZeroDivisionError when the divisor is 0), then
`waterVol += volume`. -/
def Tank.mixWater (t : Tank) (volume temprature : ℚ) : Except PyError Tank :=
  if volume + t.waterVol = 0 then .error .zeroDivision
  else .ok ⟨t.capacity, t.waterVol + volume,
    (volume * temprature + t.waterTemp * t.waterVol) / (volume + t.waterVol)⟩

/-- The condition under which Tank.addWater prints its capacity warning:
`volume > capacity - waterVol`. -/
def Tank.capacityExceeded (t : Tank) (volume : ℚ) : Prop :=
  t.capacity - t.waterVol < volume

instance (t : Tank) (v : ℚ) : Decidable (t.capacityExceeded v) :=
  inferInstanceAs (Decidable (t.capacity - t.waterVol < v))

/-- Tank.addWater: the capacity check only prints the warning; the mix is
performed unconditionally. -/
def Tank.addWater (t : Tank) (volume temprature : ℚ) : Except PyError Tank :=
  t.mixWater volume temprature

/-- Tank.releaseWaterVolume: when `volume > waterVol` the refusal branch tries
to print the current volume but reads `self.waterCap`, an attribute Tank never
defines, so it raises AttributeError (the tank itself is left unchanged);
otherwise `waterVol -= volume`. -/
def Tank.releaseWaterVolume (t : Tank) (volume : ℚ) : Except PyError Tank :=
  if t.waterVol < volume then .error .attributeError
  else .ok ⟨t.capacity, t.waterVol - volume, t.waterTemp⟩

/-- The invariant claimed for the tank: `0 ≤ storedVolume ≤ capacity`. -/
def Tank.inv (t : Tank) : Prop :=
  0 ≤ t.waterVol ∧ t.waterVol ≤ t.capacity

instance (t : Tank) : Decidable t.inv :=
  inferInstanceAs (Decidable (0 ≤ t.waterVol ∧ t.waterVol ≤ t.capacity))

/-- One mutating call on a Tank: addWater or releaseWaterVolume. -/
inductive TankOp where
  | add (volume temprature : ℚ)
  | release (volume : ℚ)
deriving DecidableEq, Repr

/-- The volume argument of a call. -/
def TankOp.volume : TankOp → ℚ
  | .add v _ => v
  | .release v => v

/-- The tank state after a call: a raised exception leaves the tank unchanged
(no mutation happens before the raise in either method). -/
def Tank.step (t : Tank) : TankOp → Tank
  | .add v temp =>
    match t.addWater v temp with
    | .ok t1 => t1
    | .error _ => t
  | .release v =>
    match t.releaseWaterVolume v with
    | .ok t1 => t1
    | .error _ => t

/-- The tank state after a sequence of calls. -/
def Tank.run : Tank → List TankOp → Tank
  | t, [] => t
  | t, op :: ops => Tank.run (t.step op) ops

/-- A call that does not trigger the CapacityExceeded warning: an addWater
whose volume fits the remaining capacity (releaseWaterVolume never warns
about capacity). -/
def TankOp.fits (t : Tank) : TankOp → Prop
  | .add v _ => v ≤ t.capacity - t.waterVol
  | .release _ => True

instance (t : Tank) (op : TankOp) : Decidable (op.fits t) :=
  match op with
  | .add v _ => inferInstanceAs (Decidable (v ≤ t.capacity - t.waterVol))
  | .release _ => inferInstanceAs (Decidable True)

/-- Every call of the sequence fits at the state where it executes. -/
def fitsAll : Tank → List TankOp → Prop
  | _, [] => True
  | t, op :: ops => op.fits t ∧ fitsAll (t.step op) ops

instance instDecFitsAll : (t : Tank) → (ops : List TankOp) → Decidable (fitsAll t ops)
  | _, [] => inferInstanceAs (Decidable True)
  | t, op :: ops =>
    letI := instDecFitsAll (t.step op) ops
    inferInstanceAs (Decidable (op.fits t ∧ fitsAll (t.step op) ops))

/-! ## class Pumping -/

/-- Pumping.drawWaterFromTank: release `pumpingRate` liters from the tank. -/
def Pumping.drawWaterFromTank (pumpingRate : ℚ) (tank : Tank) : Except PyError Tank :=
  tank.releaseWaterVolume pumpingRate

/-- Pumping.feedWaterToSolarHeater: heat `pumpingRate` liters at the tank's
current temperature (reads the shared class-level panel list and the heater's
incidentEnergy). -/
def Pumping.feedWaterToSolarHeater (panels : List Panel) (incidentEnergy pumpingRate : ℚ)
    (tank : Tank) : Except PyError ℚ :=
  SolarHeater.heatWater panels incidentEnergy pumpingRate tank.waterTemp

/-- Pumping.feedWaterToTank: mix `pumpingRate` liters at the given
temperature back into the tank. -/
def Pumping.feedWaterToTank (pumpingRate : ℚ) (tank : Tank) (waterTemperature : ℚ) :
    Except PyError Tank :=
  tank.addWater pumpingRate waterTemperature

/-! ## class Controller -/

/-- The immutable data the Controller's loop reads each cycle: the heater's
panel list and incident energy, the pump's rate, and `targetTemp`. -/
structure SimConfig where
  panels : List Panel
  incidentEnergy : ℚ
  pumpingRate : ℚ
  targetTemp : ℚ
deriving DecidableEq, Repr

/-- Controller.__performOneCycle: draw from tank, heat at the panel array,
mix back into the tank, strictly in that order. -/
def performOneCycle (cfg : SimConfig) (tank : Tank) : Except PyError Tank :=
  match Pumping.drawWaterFromTank cfg.pumpingRate tank with
  | .error e => .error e
  | .ok tank1 =>
    match Pumping.feedWaterToSolarHeater cfg.panels cfg.incidentEnergy cfg.pumpingRate tank1 with
    | .error e => .error e
    | .ok newWaterTemp => Pumping.feedWaterToTank cfg.pumpingRate tank1 newWaterTemp

/-- The for-loop of Controller.__simulateSystemForSeconds, with `i` the
current value of `timeTaken` and the last argument the number of iterations
still to come after this one.  On the final iteration the loop returns
`(timeTaken, tank)` whether or not the target was reached, exactly as the
`break` does. -/
def simLoopAux (cfg : SimConfig) : Tank → Nat → Nat → Except PyError (Nat × Tank)
  | tank, i, 0 =>
    match performOneCycle cfg tank with
    | .error e => .error e
    | .ok t1 => .ok (i, t1)
  | tank, i, r + 1 =>
    match performOneCycle cfg tank with
    | .error e => .error e
    | .ok t1 =>
      if cfg.targetTemp ≤ t1.waterTemp then .ok (i, t1)
      else simLoopAux cfg t1 (i + 1) r

/-- Controller.__simulateSystemForSeconds: `timeTaken` is initialized to 0, so
`time = 0` returns `(0, tank)` without running a cycle; otherwise the loop
runs `range(time)`. -/
def simulateSystemForSecondsCore (cfg : SimConfig) (tank : Tank) (time : Nat) :
    Except PyError (Nat × Tank) :=
  match time with
  | 0 => .ok (0, tank)
  | t + 1 => simLoopAux cfg tank 0 t

/-- Controller.simulateSystemForSeconds: the print reports `timeTaken + 1`
seconds together with the final tank temperature; the pair of printed values
is modelled as the returned pair. -/
def simulateSystemForSeconds (cfg : SimConfig) (tank : Tank) (second : Nat) :
    Except PyError (Nat × ℚ) :=
  match simulateSystemForSecondsCore cfg tank second with
  | .error e => .error e
  | .ok (timeTaken, tank1) => .ok (timeTaken + 1, tank1.waterTemp)

/-- Controller.simulateSystemForHours: runs the per-second loop over
`hours * 3600` cycles; the print reports the requested `hours` (the computed
`hoursTaken = timeTaken / 3600` is not printed) and the final temperature. -/
def simulateSystemForHours (cfg : SimConfig) (tank : Tank) (hours : Nat) :
    Except PyError (Nat × ℚ) :=
  match simulateSystemForSecondsCore cfg tank (hours * 3600) with
  | .error e => .error e
  | .ok (_, tank1) => .ok (hours, tank1.waterTemp)

/-- The default panel built by `buildSolarPanels` with an empty customSpec. -/
def defaultPanel : Panel := ⟨1, 1, 9 / 50⟩

/-- The configuration Controller.componentFactory wires up: one default panel
(the class-level list being empty at process start), incident energy 1224,
pump rate 1, `targetTemp = MAX_HEAT`. -/
def defaultCfg : SimConfig := ⟨[defaultPanel], 1224, 1, MAX_HEAT⟩

/-- The tank Controller.componentFactory builds:
`Tank(capacity=500, waterVol=60, waterTemp=15)`. -/
def defaultTank : Tank := ⟨500, 60, 15⟩

/-- Outcome of the loop as the specification describes it: whether it stopped
because the target was reached, how many one-second cycles elapsed, and the
final tank state. -/
structure SimReport where
  converged : Bool
  elapsed : Nat
  finalTank : Tank
deriving DecidableEq, Repr

/-- Specification-side loop, written from the claim's words: run at most `n`
one-second cycles; after each cycle, if the tank temperature has reached the
target, stop (Converged) with the count of cycles elapsed so far; otherwise
continue until `n` cycles have elapsed (TimeExhausted). -/
def specLoop (cfg : SimConfig) : Tank → Nat → Except PyError SimReport
  | tank, 0 => .ok ⟨false, 0, tank⟩
  | tank, n + 1 =>
    match performOneCycle cfg tank with
    | .error e => .error e
    | .ok t1 =>
      if cfg.targetTemp ≤ t1.waterTemp then .ok ⟨true, 1, t1⟩
      else
        match specLoop cfg t1 n with
        | .error e => .error e
        | .ok r => .ok ⟨r.converged, r.elapsed + 1, r.finalTank⟩

/-! ## Helper lemmas -/

/-- When the per-panel mass times the specific heat is nonzero, the panel loop
returns the list of weighted outlet temperatures. -/
theorem collectPanelTemps_eq (E m t0 : ℚ) (hm : m * SpecificHeatCapacity ≠ 0)
    (ps : List Panel) :
    collectPanelTemps E m t0 ps =
      .ok (ps.map fun p =>
        (E * p.height * p.width * p.efficiency / (m * SpecificHeatCapacity) + t0) * m) := by
  induction ps with
  | nil => rfl
  | cons p ps ih =>
    simp only [collectPanelTemps, Panel.tempResult, heatEnergy, if_neg hm, ih, List.map_cons]

/-- Below the ceiling, with at least one panel and a nonzero volume, heatWater
returns the mass-weighted average of the per-panel outlet temperatures. -/
theorem heatWater_eq (panels : List Panel) (E volume t0 : ℚ) (hp : panels ≠ [])
    (hv : volume ≠ 0) (hlt : t0 < MAX_HEAT) :
    SolarHeater.heatWater panels E volume t0 =
      .ok ((panels.map fun p =>
          (E * p.height * p.width * p.efficiency /
            (volume / (panels.length : ℚ) * Density * SpecificHeatCapacity) + t0) *
          (volume / (panels.length : ℚ) * Density)).sum / (volume * Density)) := by
  have hlen : (panels.length : ℚ) ≠ 0 :=
    Nat.cast_ne_zero.mpr fun h => hp (List.length_eq_zero.mp h)
  have hden : Density ≠ 0 := by norm_num [Density]
  have hc : SpecificHeatCapacity ≠ 0 := by norm_num [SpecificHeatCapacity]
  have hm : volume / (panels.length : ℚ) * Density * SpecificHeatCapacity ≠ 0 :=
    mul_ne_zero (mul_ne_zero (div_ne_zero hv hlen) hden) hc
  have htm : volume * Density ≠ 0 := mul_ne_zero hv hden
  simp only [SolarHeater.heatWater, if_neg (not_le.mpr hlt), if_neg hlen,
    collectPanelTemps_eq _ _ _ hm, if_neg htm]

/-- A panel loop run with per-panel mass 0 raises ZeroDivisionError at the
first panel. -/
theorem collectPanelTemps_zero (E t0 : ℚ) (p : Panel) (ps : List Panel) :
    collectPanelTemps E 0 t0 (p :: ps) = .error .zeroDivision := by
  simp [collectPanelTemps, Panel.tempResult, heatEnergy]

/-- heatWater with volume 0 raises ZeroDivisionError below the ceiling. -/
theorem heatWater_zero_aux (panels : List Panel) (E t0 : ℚ) (hlt : t0 < MAX_HEAT) :
    SolarHeater.heatWater panels E 0 t0 = .error PyError.zeroDivision := by
  cases panels with
  | nil => simp [SolarHeater.heatWater, if_neg (not_le.mpr hlt)]
  | cons p ps =>
    have hlen : (((p :: ps).length : ℕ) : ℚ) ≠ 0 := Nat.cast_ne_zero.mpr (by simp)
    simp only [SolarHeater.heatWater, if_neg (not_le.mpr hlt), if_neg hlen, zero_div,
      zero_mul, collectPanelTemps_zero]

/-- A single call that does not trigger the capacity warning preserves the
tank invariant. -/
theorem step_preserves_inv (t : Tank) (op : TankOp) (hinv : t.inv)
    (hnn : 0 ≤ op.volume) (hfit : op.fits t) : (t.step op).inv := by
  obtain ⟨h0, h1⟩ := hinv
  cases op with
  | add v temp =>
    simp only [TankOp.volume] at hnn
    simp only [TankOp.fits] at hfit
    simp only [Tank.step, Tank.addWater, Tank.mixWater]
    by_cases hz : v + t.waterVol = 0
    · simp only [if_pos hz]
      exact ⟨h0, h1⟩
    · simp only [if_neg hz]
      exact ⟨show (0 : ℚ) ≤ t.waterVol + v by linarith,
        show t.waterVol + v ≤ t.capacity by linarith⟩
  | release v =>
    simp only [TankOp.volume] at hnn
    simp only [Tank.step, Tank.releaseWaterVolume]
    by_cases hz : t.waterVol < v
    · simp only [if_pos hz]
      exact ⟨h0, h1⟩
    · simp only [if_neg hz]
      push_neg at hz
      exact ⟨show (0 : ℚ) ≤ t.waterVol - v by linarith,
        show t.waterVol - v ≤ t.capacity by linarith⟩

/-! ## Claim theorems -/

/-- Claim C1, counterexample: starting from the valid default tank
(capacity 600, volume 200), the call addWater(500, 20) reports the
CapacityExceeded condition, yet still mixes, and afterwards the stored
volume (700) exceeds the capacity, so the claimed invariant fails after a
call for which CapacityExceeded was reported. -/
theorem tank_capacity_cex :
    Tank.inv ⟨600, 200, 30⟩ ∧
    Tank.capacityExceeded ⟨600, 200, 30⟩ 500 ∧
    ¬ Tank.inv (Tank.step ⟨600, 200, 30⟩ (TankOp.add 500 20)) := by
  norm_num [Tank.inv, Tank.capacityExceeded, Tank.step, Tank.addWater, Tank.mixWater]

/-- Claim C1, amended: for every sequence of addWater and releaseWater calls
with nonnegative volume arguments in which no addWater call triggers the
CapacityExceeded warning, starting from a tank satisfying the invariant,
`0 ≤ storedVolume ≤ capacity` holds after every call of the sequence. -/
theorem tank_capacity_amended : ∀ (ops : List TankOp) (t : Tank), t.inv →
    (∀ op ∈ ops, 0 ≤ op.volume) → fitsAll t ops →
    ∀ pre, pre <+: ops → (t.run pre).inv
  | [], _, hinv, _, _, pre, hpre => by
    rw [List.prefix_nil.mp hpre]
    exact hinv
  | op :: ops, t, hinv, hnn, hfit, pre, hpre => by
    cases pre with
    | nil => exact hinv
    | cons op2 pre =>
      obtain ⟨rest, hrest⟩ := hpre
      rw [List.cons_append] at hrest
      injection hrest with he1 he2
      subst he1
      have hstep := step_preserves_inv t op2 hinv (hnn op2 (List.mem_cons_self op2 ops)) hfit.1
      exact tank_capacity_amended ops (t.step op2) hstep
        (fun o ho => hnn o (List.mem_cons_of_mem op2 ho)) hfit.2 pre ⟨rest, he2⟩

/-- Witness for the amended C1: a concrete in-capacity add followed by a
release keeps the invariant. -/
theorem tank_capacity_amended_witness :
    (Tank.run ⟨600, 200, 30⟩ [TankOp.add 100 50, TankOp.release 150]).inv :=
  tank_capacity_amended [TankOp.add 100 50, TankOp.release 150] ⟨600, 200, 30⟩
    (by decide) (by decide)
    ⟨by norm_num [TankOp.fits], trivial, trivial⟩ _ (List.prefix_refl _)

/-- Claim C2: mixing volume v1 at temperature t1 into a tank holding a
positive volume at its current temperature sets the temperature to exactly
`(v1*t1 + v2*t2) / (v1 + v2)`, which lies between the smaller and the larger
of the two temperatures, and increases the stored volume by exactly v1. -/
theorem mixWater_spec (t : Tank) (v1 t1 : ℚ) (hv2 : 0 < t.waterVol) (hv1 : 0 < v1) :
    t.mixWater v1 t1 =
      .ok ⟨t.capacity, t.waterVol + v1,
        (v1 * t1 + t.waterTemp * t.waterVol) / (v1 + t.waterVol)⟩ ∧
    min t1 t.waterTemp ≤ (v1 * t1 + t.waterTemp * t.waterVol) / (v1 + t.waterVol) ∧
    (v1 * t1 + t.waterTemp * t.waterVol) / (v1 + t.waterVol) ≤ max t1 t.waterTemp := by
  have hden : 0 < v1 + t.waterVol := by linarith
  refine ⟨?_, ?_, ?_⟩
  · simp only [Tank.mixWater, if_neg hden.ne']
  · rw [le_div_iff₀ hden]
    have h1 := mul_le_mul_of_nonneg_right (min_le_left t1 t.waterTemp) hv1.le
    have h2 := mul_le_mul_of_nonneg_right (min_le_right t1 t.waterTemp) hv2.le
    nlinarith [h1, h2]
  · rw [div_le_iff₀ hden]
    have h1 := mul_le_mul_of_nonneg_right (le_max_left t1 t.waterTemp) hv1.le
    have h2 := mul_le_mul_of_nonneg_right (le_max_right t1 t.waterTemp) hv2.le
    nlinarith [h1, h2]

/-- Witness for C2 at a concrete tank and inflow. -/
theorem mixWater_spec_witness :
    Tank.mixWater ⟨600, 200, 30⟩ 100 50 =
      .ok ⟨600, 200 + 100, (100 * 50 + 30 * 200) / (100 + 200)⟩ ∧
    min 50 30 ≤ (100 * 50 + 30 * 200) / ((100 : ℚ) + 200) ∧
    (100 * 50 + 30 * 200) / ((100 : ℚ) + 200) ≤ max 50 30 :=
  mixWater_spec ⟨600, 200, 30⟩ 100 50 (by decide) (by decide)

/-- Claim C3: for a panel array with at least one panel and a positive volume,
heatWater returns exactly MAX_HEAT whenever the inlet temperature is at least
MAX_HEAT; otherwise it splits the volume evenly across the panels, computes
each panel's outlet temperature at the common inlet temperature and the
per-panel mass `volume / panelCount * Density`, and returns the total-mass
weighted average of the per-panel outlet temperatures. -/
theorem heatWater_spec (panels : List Panel) (E volume t0 : ℚ) (hp : panels ≠ [])
    (hv : 0 < volume) :
    (MAX_HEAT ≤ t0 → SolarHeater.heatWater panels E volume t0 = .ok MAX_HEAT) ∧
    (t0 < MAX_HEAT →
      SolarHeater.heatWater panels E volume t0 =
        .ok ((panels.map fun p =>
            (E * p.height * p.width * p.efficiency /
              (volume / (panels.length : ℚ) * Density * SpecificHeatCapacity) + t0) *
            (volume / (panels.length : ℚ) * Density)).sum / (volume * Density))) := by
  constructor
  · intro h
    simp only [SolarHeater.heatWater, if_pos h]
  · intro h
    exact heatWater_eq panels E volume t0 hp hv.ne' h

/-- Witness for C3 at the default panel and the default operating point. -/
theorem heatWater_spec_witness :
    SolarHeater.heatWater [defaultPanel] 1224 1 15 =
      .ok ((([defaultPanel] : List Panel).map fun p =>
          (1224 * p.height * p.width * p.efficiency /
            (1 / ((([defaultPanel] : List Panel).length : ℕ) : ℚ) * Density *
              SpecificHeatCapacity) + 15) *
          (1 / ((([defaultPanel] : List Panel).length : ℕ) : ℚ) * Density)).sum /
        (1 * Density)) :=
  (heatWater_spec [defaultPanel] 1224 1 15 (by decide) (by decide)).2 (by decide)

/-- Claim C5: the panel container is a class-level attribute shared by every
instance, so constructing a second array appends to the first one's sequence:
after `SolarHeater(1)` the shared list holds 1 panel, and after a subsequent
`SolarHeater(2)` it holds 3, so the first instance no longer sees exactly the
1 panel it was constructed with. -/
theorem sharedPanels_eval :
    SolarHeater.construct [] 1 [] = .ok ([defaultPanel], ⟨-1⟩) ∧
    SolarHeater.construct [defaultPanel] 2 [] =
      .ok ([defaultPanel, defaultPanel, defaultPanel], ⟨-1⟩) ∧
    ([defaultPanel] : List Panel).length = 1 ∧
    ([defaultPanel, defaultPanel, defaultPanel] : List Panel).length = 3 :=
  ⟨rfl, rfl, rfl, rfl⟩

/-- Claim C6: construction leaves the sentinel -1 in incidentEnergy, yet
getIncidentEnergy rejects exactly the stored value 0 (a legitimate energy)
and returns the unset sentinel -1 unrejected: the guard tests zero, not the
sentinel. -/
theorem getIncidentEnergy_eval :
    SolarHeater.construct [] 1 [] = .ok ([defaultPanel], ⟨-1⟩) ∧
    getIncidentEnergy ⟨-1⟩ = .ok (-1) ∧
    getIncidentEnergy ⟨0⟩ = .error PyError.valueError :=
  ⟨rfl, by norm_num [getIncidentEnergy], by norm_num [getIncidentEnergy]⟩

/-- Claim C7: every invocation of changePanelAt raises NameError — the method
lacks a self parameter — so an in-range index never updates a panel and an
out-of-range index neither silently no-ops nor fails with an index error. -/
theorem changePanelAt_eval :
    changePanelAt 0 (some 2) none none = .error PyError.nameError ∧
    changePanelAt 5 none none none = .error PyError.nameError := ⟨rfl, rfl⟩

/-- Claim C8: releasing more water than stored takes the refusal branch, which
raises AttributeError while trying to print the report (the print reads the
nonexistent attribute waterCap), leaving the tank unchanged; releasing no more
than the stored volume decreases the stored volume by exactly that amount. -/
theorem releaseWater_eval :
    Tank.releaseWaterVolume ⟨600, 200, 30⟩ 300 = .error PyError.attributeError ∧
    Tank.releaseWaterVolume ⟨600, 200, 30⟩ 50 = .ok ⟨600, 150, 30⟩ := by
  norm_num [Tank.releaseWaterVolume]

/-- Claim C9, counterexample: heatWater with volume 0 on the default panel
raises ZeroDivisionError, which is not the ValueError that models an
InvalidArgument failure. -/
theorem heatWater_zero_cex :
    SolarHeater.heatWater [defaultPanel] 1224 0 15 = .error PyError.zeroDivision ∧
    (Except.error PyError.zeroDivision : Except PyError ℚ) ≠
      .error PyError.valueError :=
  ⟨heatWater_zero_aux [defaultPanel] 1224 15 (by norm_num [MAX_HEAT]),
    fun h => PyError.noConfusion (Except.error.inj h)⟩

/-- Claim C9, amended: below the heating ceiling, heatWater called with
volume 0 performs no argument validation and raises ZeroDivisionError — from
the per-panel heat computation when a panel exists, or from the panel-count
split when the panel list is empty. -/
theorem heatWater_zero_volume (panels : List Panel) (E t0 : ℚ) (hlt : t0 < MAX_HEAT) :
    SolarHeater.heatWater panels E 0 t0 = .error PyError.zeroDivision :=
  heatWater_zero_aux panels E t0 hlt

/-- Witness for the amended C9 at a two-panel array. -/
theorem heatWater_zero_volume_witness :
    SolarHeater.heatWater [defaultPanel, defaultPanel] 500 0 20 =
      .error PyError.zeroDivision :=
  heatWater_zero_volume [defaultPanel, defaultPanel] 500 20 (by norm_num [MAX_HEAT])

/-! ## Simulation loop lemmas -/

/-- Unfolding of the specification loop at zero remaining cycles. -/
theorem specLoop_zero (cfg : SimConfig) (tank : Tank) :
    specLoop cfg tank 0 = .ok ⟨false, 0, tank⟩ := rfl

/-- Unfolding of the specification loop at a successor cycle count. -/
theorem specLoop_succ (cfg : SimConfig) (tank : Tank) (n : Nat) :
    specLoop cfg tank (n + 1) =
      match performOneCycle cfg tank with
      | .error e => .error e
      | .ok t1 =>
        if cfg.targetTemp ≤ t1.waterTemp then .ok ⟨true, 1, t1⟩
        else
          match specLoop cfg t1 n with
          | .error e => .error e
          | .ok r => .ok ⟨r.converged, r.elapsed + 1, r.finalTank⟩ := rfl

/-- Unfolding of the code loop at its final iteration. -/
theorem simLoopAux_zero (cfg : SimConfig) (tank : Tank) (i : Nat) :
    simLoopAux cfg tank i 0 =
      match performOneCycle cfg tank with
      | .error e => .error e
      | .ok t1 => .ok (i, t1) := rfl

/-- Unfolding of the code loop at a non-final iteration. -/
theorem simLoopAux_succ (cfg : SimConfig) (tank : Tank) (i r : Nat) :
    simLoopAux cfg tank i (r + 1) =
      match performOneCycle cfg tank with
      | .error e => .error e
      | .ok t1 =>
        if cfg.targetTemp ≤ t1.waterTemp then .ok (i, t1)
        else simLoopAux cfg t1 (i + 1) r := rfl

/-- A successful specification-loop run over at least one cycle elapses at
least one cycle. -/
theorem specLoop_elapsed_pos (cfg : SimConfig) (tank : Tank) (n : Nat) (r : SimReport)
    (h : specLoop cfg tank (n + 1) = .ok r) : 1 ≤ r.elapsed := by
  cases hc : performOneCycle cfg tank with
  | error e => simp [specLoop_succ, hc] at h
  | ok t1 =>
    simp only [specLoop_succ, hc] at h
    by_cases ht : cfg.targetTemp ≤ t1.waterTemp
    · rw [if_pos ht] at h
      injection h with h
      subst h
      exact Nat.le_refl 1
    · rw [if_neg ht] at h
      cases hs : specLoop cfg t1 n with
      | error e => rw [hs] at h; simp at h
      | ok r2 =>
        rw [hs] at h
        injection h with h
        subst h
        exact Nat.le_add_left 1 r2.elapsed

/-- The code loop refines the specification loop: when the specification loop
over `rem + 1` cycles returns a report, the code loop starting at counter `i`
with `rem` further iterations returns the counter advanced by one less than
the elapsed cycle count, together with the same final tank. -/
theorem simLoopAux_of_specLoop (cfg : SimConfig) :
    ∀ (rem : Nat) (tank : Tank) (i : Nat) (r : SimReport),
      specLoop cfg tank (rem + 1) = .ok r →
      simLoopAux cfg tank i rem = .ok (i + (r.elapsed - 1), r.finalTank) := by
  intro rem
  induction rem with
  | zero =>
    intro tank i r h
    cases hc : performOneCycle cfg tank with
    | error e => simp [specLoop_succ, hc] at h
    | ok t1 =>
      simp only [specLoop_succ, hc] at h
      simp only [simLoopAux_zero, hc]
      by_cases ht : cfg.targetTemp ≤ t1.waterTemp
      · rw [if_pos ht] at h
        injection h with h
        subst h
        rfl
      · rw [if_neg ht] at h
        rw [specLoop_zero] at h
        injection h with h
        subst h
        rfl
  | succ rem ih =>
    intro tank i r h
    rw [specLoop_succ] at h
    cases hc : performOneCycle cfg tank with
    | error e =>
      rw [hc] at h
      simp at h
    | ok t1 =>
      rw [hc] at h
      dsimp only at h
      simp only [simLoopAux_succ, hc]
      by_cases ht : cfg.targetTemp ≤ t1.waterTemp
      · rw [if_pos ht] at h
        rw [if_pos ht]
        injection h with h
        subst h
        rfl
      · rw [if_neg ht] at h
        rw [if_neg ht]
        cases hs : specLoop cfg t1 (rem + 1) with
        | error e => rw [hs] at h; simp at h
        | ok r2 =>
          rw [hs] at h
          injection h with h
          subst h
          have he := specLoop_elapsed_pos cfg t1 rem r2 hs
          rw [ih t1 (i + 1) r2 hs]
          have harith : i + 1 + (r2.elapsed - 1) = i + (r2.elapsed + 1 - 1) := by omega
          rw [harith]

/-- The specification loop's report is internally consistent: a converged
report reached the target within the cycle budget, and a non-converged report
used the whole budget. -/
theorem specLoop_props (cfg : SimConfig) :
    ∀ (n : Nat) (tank : Tank) (r : SimReport), specLoop cfg tank n = .ok r →
      (r.converged = true →
        cfg.targetTemp ≤ r.finalTank.waterTemp ∧ 1 ≤ r.elapsed ∧ r.elapsed ≤ n) ∧
      (r.converged = false → r.elapsed = n) := by
  intro n
  induction n with
  | zero =>
    intro tank r h
    rw [specLoop_zero] at h
    injection h with h
    subst h
    exact ⟨fun hh => Bool.noConfusion hh, fun _ => rfl⟩
  | succ n ih =>
    intro tank r h
    cases hc : performOneCycle cfg tank with
    | error e => simp [specLoop_succ, hc] at h
    | ok t1 =>
      simp only [specLoop_succ, hc] at h
      by_cases ht : cfg.targetTemp ≤ t1.waterTemp
      · rw [if_pos ht] at h
        injection h with h
        subst h
        dsimp only
        exact ⟨fun _ => ⟨ht, Nat.le_refl 1, by omega⟩, fun hh => Bool.noConfusion hh⟩
      · rw [if_neg ht] at h
        cases hs : specLoop cfg t1 n with
        | error e => rw [hs] at h; simp at h
        | ok r2 =>
          rw [hs] at h
          injection h with h
          subst h
          obtain ⟨hT, hF⟩ := ih t1 r2 hs
          dsimp only
          refine ⟨fun hcv => ?_, fun hcv => ?_⟩
          · obtain ⟨ha, hb, hc2⟩ := hT hcv
            exact ⟨ha, by omega, by omega⟩
          · have := hF hcv
            omega

/-- The private loop entry returns one less than the elapsed cycle count and
the specification loop's final tank. -/
theorem core_of_specLoop (cfg : SimConfig) (tank : Tank) (n : Nat) (r : SimReport)
    (h : specLoop cfg tank n = .ok r) :
    simulateSystemForSecondsCore cfg tank n = .ok (r.elapsed - 1, r.finalTank) := by
  cases n with
  | zero =>
    rw [specLoop_zero] at h
    injection h with h
    subst h
    rfl
  | succ n =>
    have hx := simLoopAux_of_specLoop cfg n tank 0 r h
    simpa [simulateSystemForSecondsCore] using hx

/-- One cycle of the default system. -/
theorem defaultCycle1 :
    performOneCycle defaultCfg defaultTank = .ok ⟨500, 60, 2572653 / 171500⟩ := by
  norm_num [performOneCycle, Pumping.drawWaterFromTank, Pumping.feedWaterToSolarHeater,
    Pumping.feedWaterToTank, Tank.releaseWaterVolume, Tank.addWater, Tank.mixWater,
    SolarHeater.heatWater, collectPanelTemps, Panel.tempResult, heatEnergy,
    defaultCfg, defaultTank, defaultPanel, MAX_HEAT, Density, SpecificHeatCapacity]

/-- A second cycle of the default system. -/
theorem defaultCycle2 :
    performOneCycle defaultCfg ⟨500, 60, 2572653 / 171500⟩ =
      .ok ⟨500, 60, 1286403 / 85750⟩ := by
  norm_num [performOneCycle, Pumping.drawWaterFromTank, Pumping.feedWaterToSolarHeater,
    Pumping.feedWaterToTank, Tank.releaseWaterVolume, Tank.addWater, Tank.mixWater,
    SolarHeater.heatWater, collectPanelTemps, Panel.tempResult, heatEnergy,
    defaultCfg, defaultTank, defaultPanel, MAX_HEAT, Density, SpecificHeatCapacity]

/-- The specification loop on the default system runs two cycles without
converging. -/
theorem specLoop_default_two :
    specLoop defaultCfg defaultTank 2 = .ok ⟨false, 2, ⟨500, 60, 1286403 / 85750⟩⟩ := by
  rw [show (2 : Nat) = 1 + 1 from rfl, specLoop_succ]
  simp only [defaultCycle1]
  rw [if_neg (by norm_num [defaultCfg, MAX_HEAT])]
  rw [show (1 : Nat) = 0 + 1 from rfl, specLoop_succ]
  simp only [defaultCycle2, specLoop_zero]
  rw [if_neg (by norm_num [defaultCfg, MAX_HEAT])]

/-- Claim C4, counterexample: a requested duration of 0 seconds runs no cycle
(the tank is returned unchanged and the internal counter keeps its initial
value 0), yet the seconds entry point reports an elapsed time of 1 second, so
the entry point does not report the elapsed time. -/
theorem simulate_report_cex :
    simulateSystemForSecondsCore defaultCfg defaultTank 0 = .ok (0, defaultTank) ∧
    simulateSystemForSeconds defaultCfg defaultTank 0 = .ok (1, 15) ∧
    (1 : Nat) ≠ 0 :=
  ⟨rfl, rfl, Nat.one_ne_zero⟩

/-- Claim C4, amended: whenever the specification loop — up to n one-second
cycles, each performing draw-from-tank, feed-to-panel-array, feed-to-tank in
that order, stopping Converged as soon as the tank temperature reaches the
target and TimeExhausted after n cycles otherwise — returns a report, the
code's loop returns elapsed − 1 and the same final tank; the seconds entry
point reports (elapsed − 1) + 1 (the elapsed count whenever at least one
cycle ran, but 1 when n = 0) with the final temperature; a converged report
reached the target within budget and a non-converged one used the whole
budget; and the hours entry point runs the same loop over hours × 3600 cycles
but reports the requested hour count, not the elapsed time, with the final
temperature. -/
theorem simulate_loop_spec (cfg : SimConfig) (tank : Tank) (n : Nat) (r : SimReport)
    (h : specLoop cfg tank n = .ok r) :
    simulateSystemForSecondsCore cfg tank n = .ok (r.elapsed - 1, r.finalTank) ∧
    simulateSystemForSeconds cfg tank n = .ok (r.elapsed - 1 + 1, r.finalTank.waterTemp) ∧
    (r.converged = true →
      cfg.targetTemp ≤ r.finalTank.waterTemp ∧ 1 ≤ r.elapsed ∧ r.elapsed ≤ n) ∧
    (r.converged = false → r.elapsed = n) ∧
    (∀ hrs r2, specLoop cfg tank (hrs * 3600) = .ok r2 →
      simulateSystemForHours cfg tank hrs = .ok (hrs, r2.finalTank.waterTemp)) := by
  have hcore := core_of_specLoop cfg tank n r h
  obtain ⟨hT, hF⟩ := specLoop_props cfg n tank r h
  refine ⟨hcore, ?_, hT, hF, ?_⟩
  · simp only [simulateSystemForSeconds, hcore]
  · intro hrs r2 h2
    have hx := core_of_specLoop cfg tank (hrs * 3600) r2 h2
    simp only [simulateSystemForHours, hx]

/-- Witness for the amended C4: on the default system over 2 requested
seconds, neither cycle converges and the code loop returns counter 1 with the
tank after two cycles. -/
theorem simulate_loop_spec_witness :
    simulateSystemForSecondsCore defaultCfg defaultTank 2 =
      .ok (1, ⟨500, 60, 1286403 / 85750⟩) :=
  (simulate_loop_spec defaultCfg defaultTank 2 ⟨false, 2, ⟨500, 60, 1286403 / 85750⟩⟩
    specLoop_default_two).1

/-- Claim C10: a complete pump cycle run with a positive pumping rate no
larger than the stored volume (and a nonempty panel array) draws exactly the
rate from the tank and returns exactly the rate to it, so the stored volume
after the cycle equals the stored volume before it. -/
theorem cycle_preserves_volume (cfg : SimConfig) (tank : Tank)
    (hr : 0 < cfg.pumpingRate) (hv : cfg.pumpingRate ≤ tank.waterVol)
    (hp : cfg.panels ≠ []) :
    ∃ t1, performOneCycle cfg tank = .ok t1 ∧ t1.waterVol = tank.waterVol := by
  have hnl : ¬ tank.waterVol < cfg.pumpingRate := not_lt.mpr hv
  obtain ⟨newT, hheat⟩ :
      ∃ newT, SolarHeater.heatWater cfg.panels cfg.incidentEnergy cfg.pumpingRate
        tank.waterTemp = .ok newT := by
    rcases le_or_lt MAX_HEAT tank.waterTemp with ht | ht
    · exact ⟨MAX_HEAT, by simp only [SolarHeater.heatWater, if_pos ht]⟩
    · exact ⟨_, heatWater_eq cfg.panels cfg.incidentEnergy cfg.pumpingRate
        tank.waterTemp hp hr.ne' ht⟩
  have hden : cfg.pumpingRate + (tank.waterVol - cfg.pumpingRate) ≠ 0 := by
    intro h0
    have hzero : tank.waterVol = 0 := by linarith
    linarith
  refine ⟨⟨tank.capacity, (tank.waterVol - cfg.pumpingRate) + cfg.pumpingRate,
    (cfg.pumpingRate * newT + tank.waterTemp * (tank.waterVol - cfg.pumpingRate)) /
      (cfg.pumpingRate + (tank.waterVol - cfg.pumpingRate))⟩, ?_, ?_⟩
  · simp only [performOneCycle, Pumping.drawWaterFromTank, Tank.releaseWaterVolume,
      if_neg hnl, Pumping.feedWaterToSolarHeater, hheat, Pumping.feedWaterToTank,
      Tank.addWater, Tank.mixWater, if_neg hden]
  · show tank.waterVol - cfg.pumpingRate + cfg.pumpingRate = tank.waterVol
    ring

/-- Witness for C10 on the default system: one complete cycle leaves the
stored volume at its initial value. -/
theorem cycle_preserves_volume_witness :
    ∃ t1, performOneCycle defaultCfg defaultTank = .ok t1 ∧
      t1.waterVol = defaultTank.waterVol :=
  cycle_preserves_volume defaultCfg defaultTank (by decide) (by decide) (by decide)

end SolarSim
